import Mathlib

/-!
Verification of the smartcard comparison tool (`src/sc_compare.py`).

The program loads two tables, normalizes the values of one chosen column of
each into strings (`normalize_smartcards`), forms the two sets of distinct
normalized identifiers, and reports the sorted intersection and differences
together with four counts.  We embed the cell values as a closed variant
(null / int / float / text); a finite Python float is an exact rational, so
floats are carried as `Rat`.  The `%.15g` rendering of a float with a
fractional part is IEEE-754 specific and is kept as an explicit parameter
`fmt` of the pipeline; every theorem below holds for all `fmt`.
-/

namespace SCCompare

/-- A cell value of a chosen column: `pd.isna` values (None/NaN), Python
ints (`int`/`np.integer`), finite Python floats (exact rationals), and
anything else, which the code handles via `str(x).strip()` (text). -/
inductive Value where
  | null : Value
  | int : Int → Value
  | float : Rat → Value
  | text : String → Value
deriving DecidableEq, Repr

/-- Python `str.strip()`: drop leading and trailing whitespace. -/
def pyStrip (s : String) : String :=
  String.mk (((s.data.dropWhile Char.isWhitespace).reverse.dropWhile
    Char.isWhitespace).reverse)

/-- The inner `_norm` of `normalize_smartcards`:
null is dropped; an int becomes `str(x)`; a float becomes
`str(int(x))` when `x.is_integer()` and its `%.15g` rendering (the
parameter `fmt`) otherwise; anything else becomes `str(x).strip()`. -/
def norm1 (fmt : Rat → String) : Value → Option String
  | Value.null => none
  | Value.int i => some (toString i)
  | Value.float q => if q.den = 1 then some (toString q.num) else some (fmt q)
  | Value.text s => some (pyStrip s)

/-- Python `series.map(_norm).dropna()`: apply `_norm` to each value in
order and drop the `None` results. -/
def normalize_smartcards (fmt : Rat → String) (col : List Value) : List String :=
  col.filterMap (norm1 fmt)

/-- Python `set(normalize_smartcards(...))`: the set of distinct
normalized identifiers of a column. -/
def idSet (fmt : Rat → String) (col : List Value) : Finset String :=
  (normalize_smartcards fmt col).toFinset

/-- Python `sorted` applied to a set of strings: the ascending list under
ordinal (code-point lexicographic) string comparison. -/
def sortedAsc (s : Finset String) : List String :=
  s.sort (· ≤ ·)

/-- The three result lists and four counts displayed by the app
(lines 156–180 of `sc_compare.py`). -/
structure ComparisonResult where
  common : List String
  only_in_1 : List String
  only_in_2 : List String
  total1 : Nat
  total2 : Nat
  common_count : Nat
  union_count : Nat
deriving DecidableEq, Repr

/-- The comparison block: normalize both columns, take the two sets of
distinct identifiers, sort the intersection and both differences, and
count.  `total1 = len(sc1)`, `total2 = len(sc2)`, the "In Both Files"
metric is `len(common)` and "Total Unique Across Both" is
`len(sc1.union(sc2))`. -/
def run_compare (fmt : Rat → String) (col1 col2 : List Value) : ComparisonResult :=
  let sc1 := idSet fmt col1
  let sc2 := idSet fmt col2
  let common := sortedAsc (sc1 ∩ sc2)
  { common := common
    only_in_1 := sortedAsc (sc1 \ sc2)
    only_in_2 := sortedAsc (sc2 \ sc1)
    total1 := sc1.card
    total2 := sc2.card
    common_count := common.length
    union_count := (sc1 ∪ sc2).card }

/-- Python substring test `needle in hay` on strings. -/
def strContains (hay needle : String) : Bool :=
  (List.range (hay.data.length + 1)).any
    (fun i => needle.data.isPrefixOf (hay.data.drop i))

/-- The predicate of `guess_sc_col`: `"smartcard" in c.lower()`. -/
def isSCMatch (c : String) : Bool :=
  strContains c.toLower "smartcard"

/-- The helper `guess_sc_col(cols)`: scan for the first column name whose
lowercase form contains "smartcard"; fall back to
`cols[0] if len(cols) > 0 else None`. -/
def guess_sc_col (cols : List String) : Option String :=
  match cols.find? isSCMatch with
  | some c => some c
  | none => cols.head?

/-- First half of the spec's column-guess description, transcribed
word for word: scan the names in order and return the first whose
lowercase form contains the substring "smartcard". -/
def guessSpecFirstMatch : List String → Option String
  | [] => none
  | c :: cs => if isSCMatch c then some c else guessSpecFirstMatch cs

/-- Transcription of the spec's column-guess heuristic (§4.1), for the
refinement comparison with `guess_sc_col`: return the first name whose
lowercase form contains "smartcard"; if none match, return the first
column; if the table has no columns, return nothing. -/
def guessSpec (cols : List String) : Option String :=
  match guessSpecFirstMatch cols with
  | some c => some c
  | none => cols.head?

/-- A table: named columns in order, each an ordered list of cell values. -/
structure Table where
  cols : List (String × List Value)
deriving DecidableEq, Repr

/-- Python `df[name]`: the value list of the column called `name`, if
present (`KeyError` otherwise, modelled as `none`). -/
def Table.getCol (t : Table) (name : String) : Option (List Value) :=
  (t.cols.find? (fun p => p.1 == name)).map (fun p => p.2)

/-- Python truthiness of an optional column name: `None` and the empty
string are falsy. -/
def truthy : Option String → Bool
  | none => false
  | some s => !(s == "")

/-- The underlying string of a selected column name (only consulted when
the selection is truthy). -/
def colName : Option String → String
  | none => ""
  | some s => s

/-- What the main area renders after the trigger. -/
inductive Outcome where
  | displayed : ComparisonResult → Outcome
  | warning : Outcome
  | idle : Outcome
  | keyError : Outcome
deriving DecidableEq, Repr

/-- The comparison on two loaded tables and two chosen column names:
`none` when a name is absent (`df[col]` raises). -/
def tableCompare (fmt : Rat → String) (t1 t2 : Table) (c1 c2 : String) :
    Option ComparisonResult :=
  match t1.getCol c1, t2.getCol c2 with
  | some v1, some v2 => some (run_compare fmt v1 v2)
  | _, _ => none

/-- The top-level dispatch (lines 154 and 232–233 of `sc_compare.py`):
the comparison block runs only when both tables are loaded, both column
selections are truthy and the button was pressed; otherwise a press of
the button yields the warning, and without a press nothing is shown. -/
def app_step (fmt : Rat → String) (df1 df2 : Option Table)
    (col1 col2 : Option String) (run : Bool) : Outcome :=
  match df1, df2 with
  | some t1, some t2 =>
    if truthy col1 && truthy col2 && run then
      match tableCompare fmt t1 t2 (colName col1) (colName col2) with
      | some r => Outcome.displayed r
      | none => Outcome.keyError
    else if run then Outcome.warning else Outcome.idle
  | _, _ => if run then Outcome.warning else Outcome.idle

/-- A placeholder formatter used to instantiate `fmt` on concrete runs in
which no non-integer float occurs. -/
def fmtDefault : Rat → String := fun _ => ""

/-! ### Helper lemmas -/

/-- The sorted list of a finset of strings is the unique `≤`-sorted
duplicate-free list with those elements. -/
theorem sortedAsc_eq_of (s : Finset String) (l : List String)
    (hn : l.Nodup) (hs : List.Sorted (· ≤ ·) l) (hm : l.toFinset = s) :
    sortedAsc s = l := by
  rw [sortedAsc]
  exact List.eq_of_perm_of_sorted
    (List.perm_of_nodup_nodup_toFinset_eq (Finset.sort_nodup _ s) hn
      (by rw [Finset.sort_toFinset, hm]))
    (Finset.sort_sorted _ s) hs

/-- A column of nulls normalizes to the empty sequence. -/
theorem normalize_smartcards_eq_nil (fmt : Rat → String) (col : List Value)
    (h : ∀ v ∈ col, v = Value.null) :
    normalize_smartcards fmt col = [] := by
  rw [normalize_smartcards, List.filterMap_eq_nil_iff]
  intro v hv
  rw [h v hv]
  rfl

/-- Stripping a string of whitespace characters yields the empty string. -/
theorem pyStrip_eq_empty (s : String) (h : ∀ c ∈ s.data, c.isWhitespace = true) :
    pyStrip s = "" := by
  rw [pyStrip, List.dropWhile_eq_nil_iff.mpr h]
  rfl

end SCCompare

namespace SCCompare

/-! ### Claims -/

/-- C1: for every pair of identifier sets produced from the two chosen
columns, the three result lists common, only-in-1 and only-in-2 are
pairwise disjoint and their union equals the union of the two identifier
sets. -/
theorem c1_result_lists_partition_union (fmt : Rat → String) (col1 col2 : List Value) :
    ((run_compare fmt col1 col2).common.toFinset ∪
        (run_compare fmt col1 col2).only_in_1.toFinset ∪
        (run_compare fmt col1 col2).only_in_2.toFinset
      = idSet fmt col1 ∪ idSet fmt col2) ∧
    Disjoint (run_compare fmt col1 col2).common.toFinset
      (run_compare fmt col1 col2).only_in_1.toFinset ∧
    Disjoint (run_compare fmt col1 col2).common.toFinset
      (run_compare fmt col1 col2).only_in_2.toFinset ∧
    Disjoint (run_compare fmt col1 col2).only_in_1.toFinset
      (run_compare fmt col1 col2).only_in_2.toFinset := by
  simp only [run_compare, sortedAsc, Finset.sort_toFinset]
  refine ⟨?_, ?_, ?_, ?_⟩
  · ext x
    simp only [Finset.mem_union, Finset.mem_inter, Finset.mem_sdiff]
    tauto
  · rw [Finset.disjoint_left]
    intro a ha hb
    simp only [Finset.mem_inter, Finset.mem_sdiff] at ha hb
    tauto
  · rw [Finset.disjoint_left]
    intro a ha hb
    simp only [Finset.mem_inter, Finset.mem_sdiff] at ha hb
    tauto
  · rw [Finset.disjoint_left]
    intro a ha hb
    simp only [Finset.mem_sdiff] at ha hb
    tauto

/-- C2: the four reported counts are the cardinalities of set 1, set 2,
their intersection and their union, so union-count equals
distinct-in-1 + distinct-in-2 − common-count. -/
theorem c2_counts (fmt : Rat → String) (col1 col2 : List Value) :
    (run_compare fmt col1 col2).total1 = (idSet fmt col1).card ∧
    (run_compare fmt col1 col2).total2 = (idSet fmt col2).card ∧
    (run_compare fmt col1 col2).common_count
      = (idSet fmt col1 ∩ idSet fmt col2).card ∧
    (run_compare fmt col1 col2).union_count
      = (idSet fmt col1 ∪ idSet fmt col2).card ∧
    ((run_compare fmt col1 col2).union_count : Int)
      = ((run_compare fmt col1 col2).total1 : Int)
        + ((run_compare fmt col1 col2).total2 : Int)
        - ((run_compare fmt col1 col2).common_count : Int) := by
  have key := Finset.card_union_add_card_inter (idSet fmt col1) (idSet fmt col2)
  have h1 : (run_compare fmt col1 col2).total1 = (idSet fmt col1).card := rfl
  have h2 : (run_compare fmt col1 col2).total2 = (idSet fmt col2).card := rfl
  have h3 : (run_compare fmt col1 col2).common_count
      = (idSet fmt col1 ∩ idSet fmt col2).card := by
    show (sortedAsc (idSet fmt col1 ∩ idSet fmt col2)).length = _
    rw [sortedAsc, Finset.length_sort]
  have h4 : (run_compare fmt col1 col2).union_count
      = (idSet fmt col1 ∪ idSet fmt col2).card := rfl
  refine ⟨h1, h2, h3, h4, ?_⟩
  rw [h1, h2, h3, h4]
  omega

/-- C3: normalization drops nulls, renders integers as their decimal
string, renders integer-valued floats as the integer's decimal string
(so integer 123 and float 123.0 both yield "123"), turns any other value
into its stripped text representation, and preserves input order without
collapsing duplicates. -/
theorem c3_normalization_rules (fmt : Rat → String) :
    (∀ xs, normalize_smartcards fmt (Value.null :: xs)
        = normalize_smartcards fmt xs) ∧
    (∀ (i : Int) xs, normalize_smartcards fmt (Value.int i :: xs)
        = toString i :: normalize_smartcards fmt xs) ∧
    (∀ (i : Int) xs, normalize_smartcards fmt (Value.float (i : Rat) :: xs)
        = toString i :: normalize_smartcards fmt xs) ∧
    (∀ s xs, normalize_smartcards fmt (Value.text s :: xs)
        = pyStrip s :: normalize_smartcards fmt xs) ∧
    normalize_smartcards fmt [Value.int 123, Value.float ((123 : Int) : Rat)]
      = ["123", "123"] := by
  refine ⟨?_, ?_, ?_, ?_, ?_⟩
  · intro xs
    simp [normalize_smartcards, norm1]
  · intro i xs
    simp [normalize_smartcards, norm1]
  · intro i xs
    simp [normalize_smartcards, norm1, Rat.den_intCast, Rat.num_intCast]
  · intro s xs
    simp [normalize_smartcards, norm1]
  · rfl

/-- C5: the three output lists are sorted in strictly ascending
lexicographic (ordinal) order of the normalized identifier string; in
particular the identifiers "10", "2", "1" sort to "1", "10", "2" (string
order, not numeric order). -/
theorem c5_sorted_lexicographic (fmt : Rat → String) (col1 col2 : List Value) :
    List.Sorted (· < ·) (run_compare fmt col1 col2).common ∧
    List.Sorted (· < ·) (run_compare fmt col1 col2).only_in_1 ∧
    List.Sorted (· < ·) (run_compare fmt col1 col2).only_in_2 ∧
    (run_compare fmtDefault [Value.text "10", Value.text "2", Value.text "1"] []).only_in_1
      = ["1", "10", "2"] := by
  refine ⟨?_, ?_, ?_, ?_⟩
  · show List.Sorted (· < ·) (sortedAsc (idSet fmt col1 ∩ idSet fmt col2))
    exact Finset.sort_sorted_lt _
  · show List.Sorted (· < ·) (sortedAsc (idSet fmt col1 \ idSet fmt col2))
    exact Finset.sort_sorted_lt _
  · show List.Sorted (· < ·) (sortedAsc (idSet fmt col2 \ idSet fmt col1))
    exact Finset.sort_sorted_lt _
  · show sortedAsc (idSet fmtDefault [Value.text "10", Value.text "2", Value.text "1"]
        \ idSet fmtDefault []) = ["1", "10", "2"]
    refine sortedAsc_eq_of _ _ (by decide) ?_ (by decide)
    simp only [List.sorted_cons, List.mem_cons, List.not_mem_nil, or_false,
      forall_eq_or_imp, forall_eq, List.sorted_nil, and_true,
      false_implies, implies_true, String.le_iff_toList_le]
    decide

/-- C6: the column-guess heuristic agrees with the spec's description:
first name whose lowercase form contains "smartcard", else the first
column, else nothing. -/
theorem c6_guess_matches_spec : ∀ cols, guess_sc_col cols = guessSpec cols := by
  have h : ∀ cols : List String, cols.find? isSCMatch = guessSpecFirstMatch cols := by
    intro cols
    induction cols with
    | nil => rfl
    | cons c cs ih =>
      by_cases h : isSCMatch c
      · simp [List.find?_cons, guessSpecFirstMatch, h]
      · simp only [Bool.not_eq_true] at h
        simp [List.find?_cons, guessSpecFirstMatch, h, ih]
  intro cols
  rw [guess_sc_col, guessSpec, h]

/-- C7: a trigger without both tables and both truthy column selections
renders the warning outcome, which carries no comparison result. -/
theorem c7_missing_input_warns (fmt : Rat → String) (df1 df2 : Option Table)
    (col1 col2 : Option String)
    (h : ¬(df1.isSome = true ∧ df2.isSome = true
        ∧ truthy col1 = true ∧ truthy col2 = true)) :
    app_step fmt df1 df2 col1 col2 true = Outcome.warning := by
  match df1, df2 with
  | none, _ => rfl
  | some t1, none => rfl
  | some t1, some t2 =>
    simp only [Option.isSome_some, true_and] at h
    cases hh1 : truthy col1 with
    | false => simp [app_step, hh1]
    | true =>
      cases hh2 : truthy col2 with
      | false => simp [app_step, hh1, hh2]
      | true => exact absurd ⟨hh1, hh2⟩ h

/-- C7 witness: pressing the trigger with no files loaded warns. -/
theorem c7_missing_input_warns_witness :
    app_step fmtDefault none none none none true = Outcome.warning :=
  c7_missing_input_warns fmtDefault none none none none (by decide)

/-- C8: an empty or all-null column yields an empty identifier set, and
when both columns are such, all three result lists are empty and all four
counts are zero. -/
theorem c8_all_null_columns (fmt : Rat → String) (col1 col2 : List Value)
    (h1 : ∀ v ∈ col1, v = Value.null) (h2 : ∀ v ∈ col2, v = Value.null) :
    idSet fmt col1 = ∅ ∧ idSet fmt col2 = ∅ ∧
    (run_compare fmt col1 col2).common = [] ∧
    (run_compare fmt col1 col2).only_in_1 = [] ∧
    (run_compare fmt col1 col2).only_in_2 = [] ∧
    (run_compare fmt col1 col2).total1 = 0 ∧
    (run_compare fmt col1 col2).total2 = 0 ∧
    (run_compare fmt col1 col2).common_count = 0 ∧
    (run_compare fmt col1 col2).union_count = 0 := by
  have e1 : idSet fmt col1 = ∅ := by
    rw [idSet, normalize_smartcards_eq_nil fmt col1 h1]
    rfl
  have e2 : idSet fmt col2 = ∅ := by
    rw [idSet, normalize_smartcards_eq_nil fmt col2 h2]
    rfl
  simp [run_compare, e1, e2, sortedAsc]

/-- C8 witness: a column of one null against an empty column. -/
theorem c8_all_null_columns_witness :
    idSet fmtDefault [Value.null] = ∅ ∧ idSet fmtDefault [] = ∅ ∧
    (run_compare fmtDefault [Value.null] []).common = [] ∧
    (run_compare fmtDefault [Value.null] []).only_in_1 = [] ∧
    (run_compare fmtDefault [Value.null] []).only_in_2 = [] ∧
    (run_compare fmtDefault [Value.null] []).total1 = 0 ∧
    (run_compare fmtDefault [Value.null] []).total2 = 0 ∧
    (run_compare fmtDefault [Value.null] []).common_count = 0 ∧
    (run_compare fmtDefault [Value.null] []).union_count = 0 :=
  c8_all_null_columns fmtDefault [Value.null] []
    (by decide) (by decide)

/-- C9: a text value consisting only of whitespace normalizes to the
empty string, is retained in the output sequence rather than dropped,
and so the empty string can be a member of an identifier set. -/
theorem c9_whitespace_text_kept (fmt : Rat → String) (s : String)
    (h : ∀ c ∈ s.data, c.isWhitespace = true) :
    norm1 fmt (Value.text s) = some "" ∧
    (∀ xs, normalize_smartcards fmt (Value.text s :: xs)
        = "" :: normalize_smartcards fmt xs) ∧
    "" ∈ idSet fmt [Value.text s] := by
  have e : pyStrip s = "" := pyStrip_eq_empty s h
  refine ⟨?_, ?_, ?_⟩
  · rw [norm1, e]
  · intro xs
    simp [normalize_smartcards, norm1, e]
  · simp [idSet, normalize_smartcards, norm1, e]

/-- C9 witness: a one-space text cell yields the empty string and keeps
its position in the normalized sequence. -/
theorem c9_whitespace_text_kept_witness :
    normalize_smartcards fmtDefault [Value.text " ", Value.int 5] = ["", "5"] := by
  rw [(c9_whitespace_text_kept fmtDefault " " (by decide)).2.1 [Value.int 5]]
  rfl

/-- C10: the comparison result is a function of the two selected columns'
value sequences alone: runs over tables that agree on the selected
columns produce identical result lists and counts, whatever the other
columns hold. -/
theorem c10_depends_only_on_columns (fmt : Rat → String)
    (t1 t2 t1' t2' : Table) (c1 c2 c1' c2' : String)
    (h1 : t1.getCol c1 = t1'.getCol c1')
    (h2 : t2.getCol c2 = t2'.getCol c2') :
    tableCompare fmt t1 t2 c1 c2 = tableCompare fmt t1' t2' c1' c2' := by
  rw [tableCompare, tableCompare, h1, h2]

/-- C10 witness: two pairs of tables with different extra columns,
column orders and matching column names give identical results. -/
theorem c10_depends_only_on_columns_witness :
    tableCompare fmtDefault
        (Table.mk [("sc", [Value.int 1]), ("x", [Value.text "a"])])
        (Table.mk [("sc", [Value.int 2])])
        "sc" "sc"
      = tableCompare fmtDefault
        (Table.mk [("y", [Value.null]), ("card", [Value.int 1])])
        (Table.mk [("z", [Value.text "q"]), ("card", [Value.int 2])])
        "card" "card" :=
  c10_depends_only_on_columns fmtDefault _ _ _ _ "sc" "sc" "card" "card"
    (by decide) (by decide)

end SCCompare
